import Mathlib

/-!
Shallow embedding of the push-to-talk dictation program in
src/voice_to_text.py.  The embedding follows the class DictationTranscriber:
the mutable object fields become a record TranscriberState, the blocking
device reads become an explicit list of read results fed to the capture
loop, and the external collaborators (audio cue, transcription engine,
keyboard injection) become parameters.  Side effects that matter to the
specification (cues, sleeps, warm-up reads, stream shutdown) are recorded
as an event trace.
-/

namespace VoiceToText

/-- Chunk size in samples, from the CHUNK constant in the source. -/
def CHUNK : Nat := 1024

/-- Sample rate in Hz, from the RATE constant in the source. -/
def RATE : Nat := 16000

/-- One audio chunk: a block of signed 16-bit samples, modelled as integers. -/
abbrev Chunk := List Int

/-- Result of one blocking read on the audio stream.  A successful read
yields a chunk of samples; an OSError in the capture loop is a transient
fault; any other exception is a fatal fault. -/
inductive ReadResult where
  | ok (data : Chunk)
  | transientErr
  | fatalErr
  deriving DecidableEq

/-- The mutable fields of DictationTranscriber that the state machine
reads and writes: is_recording, audio_frames and recording_error. -/
structure TranscriberState where
  is_recording : Bool
  audio_frames : List Chunk
  recording_error : Bool
  deriving DecidableEq

/-- Observable side effects of the start and stop paths, in program order:
opening the device, playing one audible cue, sleeping a number of
milliseconds, one discarded warm-up read, launching the capture thread,
closing the stream, terminating the audio library.  The joinThread event
never occurs in the embedded code; it names the thread join that the
specification text asks for, so that its absence can be stated. -/
inductive Event where
  | openDevice
  | cue
  | sleep (ms : Nat)
  | warmupRead
  | startCapture
  | joinThread
  | closeStream
  | terminateAudio
  deriving DecidableEq

/-- Number of warm-up chunks discarded after the second cue:
int(RATE / CHUNK * 1.0) in the source.  The float product is exact, so
integer floor division models the Python int() truncation. -/
def warmup_chunks : Nat := RATE / CHUNK

/-- One iteration of the warm-up discard loop: the read result, data or
exception alike, is dropped (the loop body is a bare read inside
try/except pass), so the state is unchanged. -/
def warmupStep (s : TranscriberState) (_r : ReadResult) : TranscriberState := s

/-- The warm-up discard loop: warmup_chunks reads, every result discarded. -/
def runWarmup (s : TranscriberState) (reads : Nat → ReadResult) : TranscriberState :=
  (List.range warmup_chunks).foldl (fun st i => warmupStep st (reads i)) s

/-- Result of start_recording: the new object state, the emitted event
trace, and whether the capture thread was launched. -/
structure StartReport where
  state : TranscriberState
  events : List Event
  captureStarted : Bool
  deriving DecidableEq

/-- Event trace of a successful start_recording call, in source order:
open the stream, first beep, half-second wait, second beep, the warm-up
discard reads, then the capture thread starts. -/
def startTraceOk : List Event :=
  [Event.openDevice, Event.cue, Event.sleep 500, Event.cue]
    ++ List.replicate warmup_chunks Event.warmupRead ++ [Event.startCapture]

/-- start_recording from the source: no-op if already recording; otherwise
reset is_recording, audio_frames and recording_error, then open the
device (openOk says whether p.open succeeds).  On success: two cues with
a half-second pause between them, the warm-up discard, and the capture
thread is started.  On an open failure the exception handler clears
is_recording again and terminates the audio library. -/
def start_recording (s : TranscriberState) (openOk : Bool)
    (warmupReads : Nat → ReadResult) : StartReport :=
  if s.is_recording then
    { state := s, events := [], captureStarted := false }
  else
    let s1 : TranscriberState :=
      { s with is_recording := true, audio_frames := [], recording_error := false }
    if openOk then
      { state := runWarmup s1 warmupReads, events := startTraceOk, captureStarted := true }
    else
      { state := { s1 with is_recording := false },
        events := [Event.openDevice, Event.terminateAudio], captureStarted := false }

/-- Transient-fault threshold from the source: max_consecutive_errors. -/
def max_consecutive_errors : Nat := 5

/-- The _record capture loop.  The list holds the read results the loop
sees before the external stop flag is observed (an empty remainder models
the while guard seeing is_recording set to false by stop_recording).  A
successful read appends the chunk and resets the consecutive error
counter; an OSError increments it and, at the threshold, sets
recording_error and clears is_recording and breaks; any other exception
sets recording_error and clears is_recording immediately. -/
def recordLoop : List ReadResult → TranscriberState → Nat → TranscriberState
  | [], s, _errs => s
  | r :: rest, s, errs =>
    if s.is_recording then
      match r with
      | ReadResult.ok d =>
        recordLoop rest { s with audio_frames := s.audio_frames ++ [d] } 0
      | ReadResult.transientErr =>
        if errs + 1 ≥ max_consecutive_errors then
          { s with recording_error := true, is_recording := false }
        else
          recordLoop rest s (errs + 1)
      | ReadResult.fatalErr =>
        { s with recording_error := true, is_recording := false }
    else s

/-- Launching the capture thread at the end of start_recording: the loop
runs on the state the start call produced, with the consecutive error
counter starting at 0, and only if the thread was actually started. -/
def runCapture (st : StartReport) (reads : List ReadResult) : TranscriberState :=
  if st.captureStarted then recordLoop reads st.state 0 else st.state

/-- Silence threshold from the source: volume < 0.001. -/
def silence_threshold : ℚ := 1 / 1000

/-- Conversion of one int16 sample to a float sample, the division by
32768.0 of the source.  Every such quotient is a dyadic rational with at
most 15 fractional bits, so it is exact in float32 and the rational model
is faithful. -/
def sampleToFloat (x : Int) : ℚ := (x : ℚ) / 32768

/-- Buffer normalization from the source: the chunks are joined in capture
order and each int16 sample is divided by 32768. -/
def normalizeBuffer (frames : List Chunk) : List ℚ :=
  frames.flatten.map sampleToFloat

/-- Mean absolute amplitude of the normalized samples, as in
np.abs(audio_np).mean(). -/
def meanAbs (xs : List ℚ) : ℚ :=
  (xs.map (fun q => |q|)).sum / (xs.length : ℚ)

/-- The Python str.strip of a segment text: drop leading and trailing
whitespace characters. -/
def pyStrip (t : String) : String :=
  String.mk (((t.data.dropWhile Char.isWhitespace).reverse.dropWhile Char.isWhitespace).reverse)

/-- The Python join on a space separator: the pieces in order with one
space between consecutive pieces. -/
def spaceJoin : List String → String
  | [] => ""
  | [t] => t
  | t :: rest => t ++ " " ++ spaceJoin rest

/-- Segment joining from the source: each segment text is stripped of
surrounding whitespace and the results are joined with single spaces. -/
def joinSegments (segs : List String) : String :=
  spaceJoin (segs.map pyStrip)

/-- The possible outcomes of one stop_recording call, one per return path
of the source function. -/
inductive StopOutcome where
  | noop
  | recordingError
  | noAudio
  | tooQuiet
  | transcriptionError
  | noSpeech
  | typed (text : String)
  deriving DecidableEq

/-- Result of stop_recording: final object state, emitted events, which
return path was taken, whether the transcription engine was invoked, the
text handed to type_text if any, and whether that injection succeeded
(type_text swallows its own exceptions, so the flag changes nothing
else). -/
structure StopReport where
  state : TranscriberState
  events : List Event
  outcome : StopOutcome
  engineCalled : Bool
  injected : Option String
  injectOk : Option Bool
  deriving DecidableEq

/-- Event trace of a non-noop stop_recording call, in source order: a
fixed 0.1 second sleep to let the capture thread finish, then the stream
is closed and the audio library terminated.  No join occurs. -/
def stopTrace : List Event := [Event.sleep 100, Event.closeStream, Event.terminateAudio]

/-- stop_recording from the source: no-op if not recording; otherwise
clear is_recording, sleep 0.1 s, close the stream, then branch: a
recording error discards the frames; an empty frame list reports no
audio; a mean absolute amplitude below the silence threshold reports too
quiet; otherwise the engine runs (engine = none models an engine
exception); an empty joined text reports no speech, and a non-empty text
is handed to type_text. -/
def stop_recording (s : TranscriberState) (engine : Option (List String))
    (injectWorks : Bool) : StopReport :=
  if s.is_recording then
    let s1 := { s with is_recording := false }
    if s1.recording_error then
      { state := { s1 with audio_frames := [] }, events := stopTrace,
        outcome := StopOutcome.recordingError, engineCalled := false,
        injected := none, injectOk := none }
    else if s1.audio_frames = [] then
      { state := s1, events := stopTrace, outcome := StopOutcome.noAudio,
        engineCalled := false, injected := none, injectOk := none }
    else
      let audio := normalizeBuffer s1.audio_frames
      if meanAbs audio < silence_threshold then
        { state := s1, events := stopTrace, outcome := StopOutcome.tooQuiet,
          engineCalled := false, injected := none, injectOk := none }
      else
        match engine with
        | none =>
          { state := s1, events := stopTrace, outcome := StopOutcome.transcriptionError,
            engineCalled := true, injected := none, injectOk := none }
        | some segs =>
          let text := joinSegments segs
          if text = "" then
            { state := s1, events := stopTrace, outcome := StopOutcome.noSpeech,
              engineCalled := true, injected := none, injectOk := none }
          else
            { state := s1, events := stopTrace, outcome := StopOutcome.typed text,
              engineCalled := true, injected := some text, injectOk := some injectWorks }
  else
    { state := s, events := [], outcome := StopOutcome.noop, engineCalled := false,
      injected := none, injectOk := none }

/-- Predicate written from the words of the specification, for comparison
with the embedded code: the stop path waits for capture-loop termination
via the termination signal of the loop, which would appear as a
joinThread event in the stop trace. -/
def specStopJoins (tr : List Event) : Prop := Event.joinThread ∈ tr

/-- Keep only the cue and warm-up read events of a trace, to state cue
ordering claims. -/
def isCueOrWarmup (e : Event) : Bool :=
  match e with
  | Event.cue => true
  | Event.warmupRead => true
  | _ => false

/-- The cue and warm-up subtrace of a trace. -/
def cueWarmupTrace (tr : List Event) : List Event := tr.filter isCueOrWarmup

/-- Cue order written from the words of the claim, for comparison with
the embedded code: first cue before the warm-up discard, second cue only
after the n warm-up reads have completed. -/
def specPrimingCueOrder (n : Nat) : List Event :=
  Event.cue :: (List.replicate n Event.warmupRead ++ [Event.cue])

/-- First example segment of Scenario C. -/
def exSeg1 : String := "hello "

/-- Second example segment of Scenario C. -/
def exSeg2 : String := " world"

/-- Expected joined text of Scenario C. -/
def exJoined : String := "hello world"

/-- Helper: the warm-up loop never changes the object state, whatever the
reads return, because every read result is discarded. -/
theorem runWarmup_id (s : TranscriberState) (reads : Nat → ReadResult) :
    runWarmup s reads = s := by
  unfold runWarmup
  generalize List.range warmup_chunks = l
  induction l generalizing s with
  | nil => rfl
  | cons a t ih =>
    simp only [List.foldl_cons, warmupStep]
    exact ih s

/-- Helper: whatever branch stop_recording takes, the returned state has
is_recording cleared. -/
theorem stop_state_not_recording (s : TranscriberState) (e : Option (List String))
    (iOk : Bool) : (stop_recording s e iOk).state.is_recording = false := by
  cases hrec : s.is_recording with
  | false => simp [stop_recording, hrec]
  | true =>
    rcases e with _ | segs <;>
      (simp only [stop_recording, hrec, if_true]; split_ifs <;> rfl)

/-- C2: a start-event while a session is active (is_recording already
true) is a complete no-op, and a stop-event while idle (is_recording
false) is a complete no-op; both guards read only the state, never a
clock. -/
theorem C2_debounce_by_state (s t : TranscriberState) (openOk : Bool)
    (wr : Nat → ReadResult) (e : Option (List String)) (iOk : Bool)
    (hs : s.is_recording = true) (ht : t.is_recording = false) :
    start_recording s openOk wr = { state := s, events := [], captureStarted := false }
  ∧ stop_recording t e iOk
      = { state := t, events := [], outcome := StopOutcome.noop, engineCalled := false,
          injected := none, injectOk := none } := by
  constructor
  · simp [start_recording, hs]
  · simp [stop_recording, ht]

/-- Witness for C2 at concrete states. -/
theorem C2_debounce_by_state_witness :
    (⟨true, [], false⟩ : TranscriberState).is_recording = true
  ∧ (⟨false, [], false⟩ : TranscriberState).is_recording = false
  ∧ (start_recording ⟨true, [], false⟩ true (fun _ => ReadResult.transientErr)
      = { state := ⟨true, [], false⟩, events := [], captureStarted := false }
    ∧ stop_recording ⟨false, [], false⟩ none false
      = { state := ⟨false, [], false⟩, events := [], outcome := StopOutcome.noop,
          engineCalled := false, injected := none, injectOk := none }) :=
  ⟨rfl, rfl,
    C2_debounce_by_state ⟨true, [], false⟩ ⟨false, [], false⟩ true
      (fun _ => ReadResult.transientErr) none false rfl rfl⟩

/-- C4: a stop-event handled while recording always ends with
is_recording cleared, on every branch of the processing phase, and the
very next start-event is accepted (the capture thread launches). -/
theorem C4_processing_always_returns_idle (s : TranscriberState)
    (e : Option (List String)) (iOk : Bool) (wr : Nat → ReadResult)
    (hs : s.is_recording = true) :
    (stop_recording s e iOk).state.is_recording = false
  ∧ (stop_recording s e iOk).outcome ≠ StopOutcome.noop
  ∧ (start_recording (stop_recording s e iOk).state true wr).captureStarted = true := by
  have hidle := stop_state_not_recording s e iOk
  refine ⟨hidle, ?_, ?_⟩
  · rcases e with _ | segs <;>
      (simp only [stop_recording, hs, if_true]; split_ifs <;> simp)
  · simp [start_recording, hidle]

/-- Witness for C4 on a faulted one-chunk session with a failing engine
and failing injector. -/
theorem C4_processing_always_returns_idle_witness :
    (⟨true, [[7]], true⟩ : TranscriberState).is_recording = true
  ∧ ((stop_recording ⟨true, [[7]], true⟩ none false).state.is_recording = false
    ∧ (stop_recording ⟨true, [[7]], true⟩ none false).outcome ≠ StopOutcome.noop
    ∧ (start_recording (stop_recording ⟨true, [[7]], true⟩ none false).state true
        (fun _ => ReadResult.ok [])).captureStarted = true) :=
  ⟨rfl, C4_processing_always_returns_idle ⟨true, [[7]], true⟩ none false
    (fun _ => ReadResult.ok []) rfl⟩

/-- Helper: the one-sample buffer [[1]] is below the silence threshold. -/
theorem meanAbs_one_sample_quiet : meanAbs (normalizeBuffer [[1]]) < silence_threshold := by
  norm_num [meanAbs, normalizeBuffer, sampleToFloat, silence_threshold, abs_of_nonneg]

/-- Helper: the one-sample buffer [[1000]] is above the silence threshold. -/
theorem meanAbs_thousand_loud :
    ¬ meanAbs (normalizeBuffer [[1000]]) < silence_threshold := by
  norm_num [meanAbs, normalizeBuffer, sampleToFloat, silence_threshold, abs_of_nonneg]

/-- C5: a healthy, non-empty buffer whose mean absolute normalized
amplitude is strictly below the silence threshold is discarded as too
quiet: the engine is not invoked, nothing is injected, and the state
returns to idle. -/
theorem C5_too_quiet_skips_engine (frames : List Chunk) (e : Option (List String))
    (iOk : Bool) (hne : frames ≠ [])
    (hq : meanAbs (normalizeBuffer frames) < silence_threshold) :
    (stop_recording ⟨true, frames, false⟩ e iOk).outcome = StopOutcome.tooQuiet
  ∧ (stop_recording ⟨true, frames, false⟩ e iOk).engineCalled = false
  ∧ (stop_recording ⟨true, frames, false⟩ e iOk).injected = none
  ∧ (stop_recording ⟨true, frames, false⟩ e iOk).state.is_recording = false := by
  simp [stop_recording, hne, hq]

/-- Witness for C5 on a single one-sample chunk of amplitude 1/32768. -/
theorem C5_too_quiet_skips_engine_witness :
    ([[1]] : List Chunk) ≠ []
  ∧ meanAbs (normalizeBuffer [[1]]) < silence_threshold
  ∧ ((stop_recording ⟨true, [[1]], false⟩ none true).outcome = StopOutcome.tooQuiet
    ∧ (stop_recording ⟨true, [[1]], false⟩ none true).engineCalled = false
    ∧ (stop_recording ⟨true, [[1]], false⟩ none true).injected = none
    ∧ (stop_recording ⟨true, [[1]], false⟩ none true).state.is_recording = false) :=
  ⟨by decide, meanAbs_one_sample_quiet,
    C5_too_quiet_skips_engine [[1]] none true (by decide) meanAbs_one_sample_quiet⟩

/-- C1: in the capture loop a transient fault increments the consecutive
error counter, a successful read appends its chunk and resets the counter
to 0, and five consecutive transient faults leave the session faulted
(recording_error set) with capturing stopped; a stop-event on that
faulted state is then an early return, so the engine is never invoked and
the buffered chunks are never transcribed, the state is idle, and the
next accepted start clears the leftover buffer. -/
theorem C1_fatal_after_five_transients
    (s : TranscriberState) (errs : Nat) (d : Chunk) (rest rest2 : List ReadResult)
    (frames : List Chunk) (e : Option (List String)) (iOk : Bool) (wr : Nat → ReadResult)
    (hrec : s.is_recording = true) (herrs : errs + 1 < max_consecutive_errors) :
    recordLoop (ReadResult.transientErr :: rest) s errs = recordLoop rest s (errs + 1)
  ∧ recordLoop (ReadResult.ok d :: rest) s errs
      = recordLoop rest { s with audio_frames := s.audio_frames ++ [d] } 0
  ∧ recordLoop (List.replicate 5 ReadResult.transientErr ++ rest2) ⟨true, frames, false⟩ 0
      = ⟨false, frames, true⟩
  ∧ (stop_recording ⟨false, frames, true⟩ e iOk).outcome = StopOutcome.noop
  ∧ (stop_recording ⟨false, frames, true⟩ e iOk).engineCalled = false
  ∧ (stop_recording ⟨false, frames, true⟩ e iOk).state.is_recording = false
  ∧ (start_recording ⟨false, frames, true⟩ true wr).state.audio_frames = [] := by
  refine ⟨?_, ?_, ?_, ?_, ?_, ?_, ?_⟩
  · simp only [recordLoop, hrec, if_true]
    rw [if_neg (Nat.not_le.mpr herrs)]
  · simp only [recordLoop, hrec, if_true]
  · rfl
  · simp [stop_recording]
  · simp [stop_recording]
  · simp [stop_recording]
  · simp [start_recording, runWarmup_id]

/-- Witness for C1 instantiated at a fresh session and one spare chunk. -/
theorem C1_fatal_after_five_transients_witness :
    (⟨true, [], false⟩ : TranscriberState).is_recording = true
  ∧ 0 + 1 < max_consecutive_errors
  ∧ recordLoop (List.replicate 5 ReadResult.transientErr ++ []) ⟨true, [[5]], false⟩ 0
      = ⟨false, [[5]], true⟩ :=
  ⟨rfl, by decide,
    (C1_fatal_after_five_transients ⟨true, [], false⟩ 0 [] [] [] [[5]] none false
      (fun _ => ReadResult.ok []) rfl (by decide)).2.2.1⟩

/-- C6: normalization concatenates the chunks in order (it distributes
over append), keeps one output sample per input sample, maps every int16
sample into the interval from -1 to 1, and multiplying each output by
32768 recovers the original integer samples exactly. -/
theorem C6_normalization_pure_roundtrip (frames f1 f2 : List Chunk)
    (hrange : ∀ x ∈ frames.flatten, -32768 ≤ x ∧ x ≤ 32767) :
    normalizeBuffer (f1 ++ f2) = normalizeBuffer f1 ++ normalizeBuffer f2
  ∧ (normalizeBuffer frames).length = frames.flatten.length
  ∧ (∀ q ∈ normalizeBuffer frames, -1 ≤ q ∧ q ≤ 1)
  ∧ (normalizeBuffer frames).map (fun q => q * 32768)
      = frames.flatten.map (fun x : Int => (x : ℚ)) := by
  refine ⟨?_, ?_, ?_, ?_⟩
  · simp [normalizeBuffer, List.flatten_append]
  · simp only [normalizeBuffer, List.length_map]
  · intro q hq
    simp only [normalizeBuffer, List.mem_map] at hq
    obtain ⟨x, hx, rfl⟩ := hq
    obtain ⟨hx1, hx2⟩ := hrange x hx
    have hc1 : (-32768 : ℚ) ≤ (x : ℚ) := by exact_mod_cast hx1
    have hc2 : (x : ℚ) ≤ 32767 := by exact_mod_cast hx2
    unfold sampleToFloat
    constructor
    · rw [le_div_iff₀ (by norm_num : (0 : ℚ) < 32768)]
      linarith
    · rw [div_le_one (by norm_num : (0 : ℚ) < 32768)]
      linarith
  · simp only [normalizeBuffer, List.map_map]
    have hfun : ((fun q : ℚ => q * 32768) ∘ sampleToFloat) = fun x : Int => (x : ℚ) := by
      funext x
      simp only [Function.comp, sampleToFloat]
      field_simp
    rw [hfun]

/-- Witness for C6 on a three-sample buffer holding both int16 extremes. -/
theorem C6_normalization_pure_roundtrip_witness :
    (∀ x ∈ ([[1, -32768], [32767]] : List Chunk).flatten, -32768 ≤ x ∧ x ≤ 32767)
  ∧ (normalizeBuffer ([[1, -32768]] ++ [[32767]])
      = normalizeBuffer [[1, -32768]] ++ normalizeBuffer [[32767]]
    ∧ (normalizeBuffer [[1, -32768], [32767]]).length
        = ([[1, -32768], [32767]] : List Chunk).flatten.length
    ∧ (∀ q ∈ normalizeBuffer [[1, -32768], [32767]], -1 ≤ q ∧ q ≤ 1)
    ∧ (normalizeBuffer [[1, -32768], [32767]]).map (fun q => q * 32768)
        = ([[1, -32768], [32767]] : List Chunk).flatten.map (fun x : Int => (x : ℚ))) :=
  ⟨by decide,
    C6_normalization_pure_roundtrip [[1, -32768], [32767]] [[1, -32768]] [[32767]]
      (by decide)⟩

/-- C7: with a healthy, non-empty, loud enough buffer, the text handed to
the injector is the segment texts each trimmed and joined with single
spaces; a non-empty joined text is injected as the typed outcome, an
empty joined text yields the no-speech outcome with no injection, and the
two segments of Scenario C join to exactly the expected text. -/
theorem C7_segments_trimmed_joined (frames : List Chunk) (segs : List String) (iOk : Bool)
    (hne : frames ≠ [])
    (hloud : ¬ meanAbs (normalizeBuffer frames) < silence_threshold) :
    (joinSegments segs ≠ "" →
        (stop_recording ⟨true, frames, false⟩ (some segs) iOk).outcome
            = StopOutcome.typed (joinSegments segs)
      ∧ (stop_recording ⟨true, frames, false⟩ (some segs) iOk).injected
            = some (joinSegments segs))
  ∧ (joinSegments segs = "" →
        (stop_recording ⟨true, frames, false⟩ (some segs) iOk).outcome = StopOutcome.noSpeech
      ∧ (stop_recording ⟨true, frames, false⟩ (some segs) iOk).injected = none
      ∧ (stop_recording ⟨true, frames, false⟩ (some segs) iOk).engineCalled = true)
  ∧ joinSegments [exSeg1, exSeg2] = exJoined := by
  refine ⟨?_, ?_, ?_⟩
  · intro htext
    constructor <;> simp [stop_recording, hne, hloud, htext]
  · intro htext
    refine ⟨?_, ?_, ?_⟩ <;> simp [stop_recording, hne, hloud, htext]
  · decide

/-- Witness for C7 on a loud one-chunk buffer and the two Scenario C
segments. -/
theorem C7_segments_trimmed_joined_witness :
    ([[1000]] : List Chunk) ≠ []
  ∧ ¬ meanAbs (normalizeBuffer [[1000]]) < silence_threshold
  ∧ ((joinSegments [exSeg1, exSeg2] ≠ "" →
        (stop_recording ⟨true, [[1000]], false⟩ (some [exSeg1, exSeg2]) true).outcome
            = StopOutcome.typed (joinSegments [exSeg1, exSeg2])
      ∧ (stop_recording ⟨true, [[1000]], false⟩ (some [exSeg1, exSeg2]) true).injected
            = some (joinSegments [exSeg1, exSeg2]))
    ∧ (joinSegments [exSeg1, exSeg2] = "" →
        (stop_recording ⟨true, [[1000]], false⟩ (some [exSeg1, exSeg2]) true).outcome
            = StopOutcome.noSpeech
      ∧ (stop_recording ⟨true, [[1000]], false⟩ (some [exSeg1, exSeg2]) true).injected = none
      ∧ (stop_recording ⟨true, [[1000]], false⟩ (some [exSeg1, exSeg2]) true).engineCalled
            = true)
    ∧ joinSegments [exSeg1, exSeg2] = exJoined) :=
  ⟨by decide, meanAbs_thousand_loud,
    C7_segments_trimmed_joined [[1000]] [exSeg1, exSeg2] true (by decide)
      meanAbs_thousand_loud⟩

/-- Helper: every non-noop branch of stop_recording emits the same event
trace: a fixed 0.1 second sleep, then stream close and terminate. -/
theorem stop_events_eq (s : TranscriberState) (e : Option (List String)) (iOk : Bool)
    (hs : s.is_recording = true) : (stop_recording s e iOk).events = stopTrace := by
  rcases e with _ | segs <;>
    (simp only [stop_recording, hs, if_true]; split_ifs <;> rfl)

/-- C3 counterexample: at a concrete recording state the stop path emits
only the fixed sleep followed by the stream shutdown; the trace holds no
joinThread event, so the controller does not wait on the capture loop
termination signal as the claim states. -/
theorem C3_counterexample :
    (stop_recording ⟨true, [[1000]], false⟩ none false).events = stopTrace
  ∧ ¬ specStopJoins (stop_recording ⟨true, [[1000]], false⟩ none false).events := by
  constructor
  · exact stop_events_eq ⟨true, [[1000]], false⟩ none false rfl
  · rw [stop_events_eq ⟨true, [[1000]], false⟩ none false rfl]
    simp [specStopJoins, stopTrace]

/-- C3 amended: on a stop-event received while recording, the controller
clears the stop flag and pauses a fixed 0.1 second before closing the
stream and reading the buffer; it performs no join on the capture thread,
and there is no grace-period branch that faults the session when the loop
fails to terminate. -/
theorem C3_amended_fixed_sleep_no_join (s : TranscriberState)
    (e : Option (List String)) (iOk : Bool) (hs : s.is_recording = true) :
    (stop_recording s e iOk).events = [Event.sleep 100, Event.closeStream, Event.terminateAudio]
  ∧ ¬ specStopJoins (stop_recording s e iOk).events
  ∧ Event.sleep 100 ∈ (stop_recording s e iOk).events := by
  have hev := stop_events_eq s e iOk hs
  rw [hev]
  refine ⟨rfl, ?_, ?_⟩
  · simp [specStopJoins, stopTrace]
  · decide

/-- Witness for the amended C3 at a concrete recording state. -/
theorem C3_amended_fixed_sleep_no_join_witness :
    (⟨true, [[2]], false⟩ : TranscriberState).is_recording = true
  ∧ ((stop_recording ⟨true, [[2]], false⟩ none true).events
        = [Event.sleep 100, Event.closeStream, Event.terminateAudio]
    ∧ ¬ specStopJoins (stop_recording ⟨true, [[2]], false⟩ none true).events
    ∧ Event.sleep 100 ∈ (stop_recording ⟨true, [[2]], false⟩ none true).events) :=
  ⟨rfl, C3_amended_fixed_sleep_no_join ⟨true, [[2]], false⟩ none true rfl⟩

/-- C8 counterexample: on a concrete accepted start the cue and warm-up
subtrace of the emitted events is not the order the claim states (cue,
then the warm-up reads, then the second cue): in the code both cues fire
before any warm-up read. -/
theorem C8_counterexample :
    cueWarmupTrace (start_recording ⟨false, [], false⟩ true (fun _ => ReadResult.ok [])).events
      ≠ specPrimingCueOrder warmup_chunks := by
  decide

/-- C8 amended: on every accepted start-event exactly two cues fire
during priming, the first immediately after the device opens and the
second after a half-second pause, and both precede the whole warm-up
discard period, which in turn precedes the start of capturing. -/
theorem C8_amended_both_cues_before_warmup (s : TranscriberState)
    (wr : Nat → ReadResult) (hs : s.is_recording = false) :
    (start_recording s true wr).events
      = [Event.openDevice, Event.cue, Event.sleep 500, Event.cue]
          ++ List.replicate warmup_chunks Event.warmupRead ++ [Event.startCapture]
  ∧ (start_recording s true wr).events.count Event.cue = 2
  ∧ cueWarmupTrace (start_recording s true wr).events
      = Event.cue :: Event.cue :: List.replicate warmup_chunks Event.warmupRead := by
  have hev : (start_recording s true wr).events = startTraceOk := by
    simp [start_recording, hs]
  rw [hev]
  refine ⟨rfl, by decide, by decide⟩

/-- Witness for the amended C8 at a concrete idle state. -/
theorem C8_amended_both_cues_before_warmup_witness :
    (⟨false, [], false⟩ : TranscriberState).is_recording = false
  ∧ ((start_recording ⟨false, [], false⟩ true (fun _ => ReadResult.transientErr)).events
        = [Event.openDevice, Event.cue, Event.sleep 500, Event.cue]
            ++ List.replicate warmup_chunks Event.warmupRead ++ [Event.startCapture]
    ∧ (start_recording ⟨false, [], false⟩ true
        (fun _ => ReadResult.transientErr)).events.count Event.cue = 2
    ∧ cueWarmupTrace (start_recording ⟨false, [], false⟩ true
          (fun _ => ReadResult.transientErr)).events
        = Event.cue :: Event.cue :: List.replicate warmup_chunks Event.warmupRead) :=
  ⟨rfl, C8_amended_both_cues_before_warmup ⟨false, [], false⟩
    (fun _ => ReadResult.transientErr) rfl⟩

/-- C9: the warm-up discards 15 chunks, the largest whole number of
1024-sample chunks within 1.0 second at 16000 Hz; the discard loop leaves
the session state untouched whatever the reads return, so a transient
fault during warm-up is swallowed, never counted and never faults the
session, and the capture loop then starts from the same fresh state with
the consecutive error counter at 0 regardless of the warm-up reads. -/
theorem C9_warmup_discard (s : TranscriberState) (reads wr wr2 : Nat → ReadResult)
    (caps : List ReadResult) (hs : s.is_recording = false) :
    warmup_chunks = 15
  ∧ warmup_chunks * CHUNK ≤ 1 * RATE
  ∧ 1 * RATE < (warmup_chunks + 1) * CHUNK
  ∧ runWarmup s reads = s
  ∧ (start_recording s true wr).state = (start_recording s true wr2).state
  ∧ runCapture (start_recording s true wr) caps
      = recordLoop caps
          { s with is_recording := true, audio_frames := [], recording_error := false } 0 := by
  refine ⟨by decide, by decide, by decide, runWarmup_id s reads, ?_, ?_⟩
  · simp [start_recording, hs, runWarmup_id]
  · simp [runCapture, start_recording, hs, runWarmup_id]

/-- Witness for C9 at a concrete idle state with all-fault warm-up reads. -/
theorem C9_warmup_discard_witness :
    (⟨false, [], false⟩ : TranscriberState).is_recording = false
  ∧ (warmup_chunks = 15
    ∧ runWarmup ⟨false, [], false⟩ (fun _ => ReadResult.transientErr) = ⟨false, [], false⟩
    ∧ runCapture (start_recording ⟨false, [], false⟩ true (fun _ => ReadResult.transientErr)) []
        = recordLoop [] ⟨true, [], false⟩ 0) :=
  ⟨rfl,
    (C9_warmup_discard ⟨false, [], false⟩ (fun _ => ReadResult.transientErr)
        (fun _ => ReadResult.transientErr) (fun _ => ReadResult.transientErr) [] rfl).1,
    (C9_warmup_discard ⟨false, [], false⟩ (fun _ => ReadResult.transientErr)
        (fun _ => ReadResult.transientErr) (fun _ => ReadResult.transientErr) [] rfl).2.2.2.1,
    (C9_warmup_discard ⟨false, [], false⟩ (fun _ => ReadResult.transientErr)
        (fun _ => ReadResult.transientErr) (fun _ => ReadResult.transientErr) [] rfl).2.2.2.2.2⟩

/-- C10: every accepted start-event produces a session whose buffer is
empty and whose error flag is clear, whether or not the device even opens
(the reset precedes the open), while a non-faulted stop leaves the just
processed frames stored in the object: stale frames can therefore never
leak into a later session, because the later start always clears them. -/
theorem C10_fresh_session_state (s : TranscriberState) (wr : Nat → ReadResult)
    (openOk : Bool) (frames : List Chunk) (e : Option (List String)) (iOk : Bool)
    (hs : s.is_recording = false) :
    (start_recording s openOk wr).state.audio_frames = []
  ∧ (start_recording s openOk wr).state.recording_error = false
  ∧ (stop_recording ⟨true, frames, false⟩ e iOk).state.audio_frames = frames := by
  refine ⟨?_, ?_, ?_⟩
  · cases openOk <;> simp [start_recording, hs, runWarmup_id]
  · cases openOk <;> simp [start_recording, hs, runWarmup_id]
  · rcases e with _ | segs <;>
      (simp only [stop_recording]; split_ifs <;> simp_all)

/-- Witness for C10 at a concrete idle state, failed open, and a
previous one-chunk session. -/
theorem C10_fresh_session_state_witness :
    (⟨false, [[9]], false⟩ : TranscriberState).is_recording = false
  ∧ ((start_recording ⟨false, [[9]], false⟩ false
        (fun _ => ReadResult.ok [])).state.audio_frames = []
    ∧ (start_recording ⟨false, [[9]], false⟩ false
        (fun _ => ReadResult.ok [])).state.recording_error = false
    ∧ (stop_recording ⟨true, [[9]], false⟩ none true).state.audio_frames = [[9]]) :=
  ⟨rfl, C10_fresh_session_state ⟨false, [[9]], false⟩ (fun _ => ReadResult.ok [])
    false [[9]] none true rfl⟩

end VoiceToText
